import Mathlib

/-!
Verification of `autotranslate/services.py`: a shallow embedding of the
translator-service classes (`BaseTranslatorService`, `GoSlateTranslatorService`,
`GoogleAPITranslatorService`) and proofs about their behaviour.

Modelling conventions:
* Python runtime values relevant to the services are the inductive `PyVal`;
  `isinstance` checks against `six.string_types`, `collections.Iterable` and
  `collections.MutableSequence` become boolean predicates on `PyVal`.
* Each backend client (`goslate.Goslate`, the Google Cloud translate client) is
  an opaque structure of functions; every service method returns its Python
  result (an `Except` for raised exceptions) paired with the ordered list of
  backend calls it performed, so "no backend call occurs" is "the trace is `[]`".
* `GoogleAPITranslatorService`'s mutable `self.translated_strings` attribute is
  threaded explicitly as a state value.
-/

/-- Python values that can be passed to the services: strings, integers,
lists of strings, generators of strings, sets of strings, and `None`. -/
inductive PyVal where
  | str (s : String)
  | int (n : Int)
  | list (xs : List String)
  | gen (xs : List String)
  | set (xs : List String)
  | pyNone
deriving DecidableEq, Repr

/-- `isinstance(x, six.string_types)`. -/
def PyVal.isString : PyVal → Bool
  | .str _ => true
  | _ => false

/-- `isinstance(x, collections.Iterable)`: Python strings, lists, generators
and sets are iterable; integers and `None` are not. -/
def PyVal.isIterable : PyVal → Bool
  | .str _ => true
  | .list _ => true
  | .gen _ => true
  | .set _ => true
  | _ => false

/-- `isinstance(x, collections.MutableSequence)`: of the values in `PyVal`,
only a list is a mutable sequence (strings, generators and sets are not). -/
def PyVal.isMutableSequence : PyVal → Bool
  | .list _ => true
  | _ => false

/-- The Python exceptions the services can raise. -/
inductive PyErr where
  | assertionError (msg : String)
  | notImplementedError (msg : String)
  | keyError (key : String)
  | improperlyConfigured (msg : String)
deriving DecidableEq, Repr

/-- A Python dict with string keys and string values: the shape of the
structured response objects returned by the Google translate client. -/
abbrev PyDict := List (String × String)

/-- Python `d.get(k)`: `none` when the key is absent, never raises. -/
def PyDict.get (d : PyDict) (k : String) : Option String :=
  List.lookup k d

/-- Python subscript `d[k]`: raises `KeyError` when the key is absent. -/
def PyDict.getitem (d : PyDict) (k : String) : Except PyErr String :=
  match List.lookup k d with
  | some v => .ok v
  | Option.none => .error (.keyError k)

/-- The value `GoSlateTranslatorService.translate_strings` returns: either the
backend's lazy generator unchanged (`optimized=True`) or the list obtained by
draining it (`optimized=False`). Both carry the same elements in order; the
tag records whether the result is single-pass or fully materialized. -/
inductive BatchResult where
  | lazy (xs : List String)
  | materialized (xs : List String)
deriving DecidableEq, Repr

/-- The elements yielded by one full iteration of a `BatchResult`. -/
def BatchResult.elems : BatchResult → List String
  | .lazy xs => xs
  | .materialized xs => xs

/-- `BaseTranslatorService.translate_string`:
`raise NotImplementedError(".translate_string() must be overridden.")`. -/
def BaseTranslatorService.translate_string (text : PyVal) (target_language : String)
    (source_language : String := "en") : Except PyErr String :=
  .error (.notImplementedError ".translate_string() must be overridden.")

/-- `BaseTranslatorService.translate_strings`:
`raise NotImplementedError(".translate_strings() must be overridden.")`. -/
def BaseTranslatorService.translate_strings (strings : PyVal) (target_language : String)
    (source_language : String := "en") (optimized : Bool := true) : Except PyErr BatchResult :=
  .error (.notImplementedError ".translate_strings() must be overridden.")

/-- The goslate backend client (`goslate.Goslate()`). `translate` is called by
the service either with a single string or with the raw iterable; we model the
two shapes separately. `translateIter v t s` is the list of elements the lazy
generator returned by `goslate.translate(v, t, s)` would yield. -/
structure Goslate where
  translateStr : String → String → String → String
  translateIter : PyVal → String → String → List String

/-- One call made to the goslate backend. -/
inductive GoslateCall where
  | callStr (text : String) (target source : String)
  | callIter (strings : PyVal) (target source : String)
deriving DecidableEq, Repr

/-- `GoSlateTranslatorService.translate_string`: asserts `text` is a string
(raising `AssertionError` before any backend call otherwise), then delegates
to `self.service.translate(text, target_language, source_language)`. -/
def GoSlateTranslatorService.translate_string (service : Goslate) (text : PyVal)
    (target_language : String) (source_language : String := "en") :
    Except PyErr String × List GoslateCall :=
  match text with
  | .str s =>
      (.ok (service.translateStr s target_language source_language),
       [.callStr s target_language source_language])
  | _ => (.error (.assertionError "`text` should a string literal"), [])

/-- `GoSlateTranslatorService.translate_strings`: asserts `strings` is iterable
(raising `AssertionError` before any backend call otherwise), calls
`self.service.translate(strings, target_language, source_language)` once, and
returns the result unchanged when `optimized` else drains it into a list. -/
def GoSlateTranslatorService.translate_strings (service : Goslate) (strings : PyVal)
    (target_language : String) (source_language : String := "en")
    (optimized : Bool := true) : Except PyErr BatchResult × List GoslateCall :=
  if strings.isIterable then
    let translations := service.translateIter strings target_language source_language
    (.ok (if optimized then .lazy translations else .materialized translations),
     [.callIter strings target_language source_language])
  else (.error (.assertionError "`strings` should a iterable containing string_types"), [])

/-- The authenticated Google Cloud translate client. `translateOne` models
`translate_client.translate(text, target_language=..., source_language=...)`
(a structured response object); `translateBatch` models the same call on a
list, returning one response object per input. -/
structure GoogleClient where
  translateOne : String → String → String → PyDict
  translateBatch : List String → String → String → List PyDict

/-- One call made to the Google translate backend. -/
inductive GoogleCall where
  | callOne (text : String) (target_language source_language : String)
  | callBatch (strings : List String) (target_language source_language : String)
deriving DecidableEq, Repr

/-- Construction-time actions of `GoogleAPITranslatorService.__init__`:
decoding the service-account credentials and constructing the client. -/
inductive InitAction where
  | credentialsFromServiceAccountInfo (json_acct_info : PyDict)
  | clientConstructed
deriving DecidableEq, Repr

/-- The mutable instance state of a `GoogleAPITranslatorService`: the
`self.translated_strings` accumulator list. -/
structure GoogleAPITranslatorServiceState where
  translated_strings : List String
deriving DecidableEq, Repr

/-- `GoogleAPITranslatorService.__init__`: reads the setting
`AUTOTRANSLATE_GOOGLE_TRANSLATOR_SERVICE_CREDENTIALS_JSON` via
`getattr(settings, ..., {})` (`settingsCredentialsJson` is its value, `none`
when the attribute is absent), raises `ImproperlyConfigured` when the value is
falsy, otherwise decodes credentials, constructs the client and initializes
`translated_strings` to `[]`. -/
def GoogleAPITranslatorService.init (settingsCredentialsJson : Option PyDict) :
    Except PyErr GoogleAPITranslatorServiceState × List InitAction :=
  let json_acct_info : PyDict := settingsCredentialsJson.getD []
  if json_acct_info.isEmpty then
    (.error (.improperlyConfigured
      "ImproperlyConfigured AUTOTRANSLATE_GOOGLE_TRANSLATOR_SERVICE_CREDENTIALS_JSON setting"), [])
  else
    (.ok ⟨[]⟩,
     [.credentialsFromServiceAccountInfo json_acct_info, .clientConstructed])

/-- `GoogleAPITranslatorService.translate_string`: asserts `text` is a string
(raising `AssertionError` before any backend call otherwise), calls the client
on it, and returns `translation.get("translatedText")`. Note the default
languages in the source signature: `target_language="en", source_language="es"`. -/
def GoogleAPITranslatorService.translate_string (translate_client : GoogleClient)
    (text : PyVal) (target_language : String := "en") (source_language : String := "es") :
    Except PyErr (Option String) × List GoogleCall :=
  match text with
  | .str s =>
      let translation := translate_client.translateOne s target_language source_language
      (.ok (translation.get "translatedText"),
       [.callOne s target_language source_language])
  | _ => (.error (.assertionError "`text` should a string literal"), [])

/-- The list comprehension
`[translation["translatedText"] for translation in response]`: extracts the
field from each response item in order, raising `KeyError` at the first item
lacking it. -/
def extractTranslatedText : List PyDict → Except PyErr (List String)
  | [] => .ok []
  | translation :: rest => do
      let v ← PyDict.getitem translation "translatedText"
      let vs ← extractTranslatedText rest
      pure (v :: vs)

/-- `GoogleAPITranslatorService.translate_strings`: asserts `strings` is a
mutable sequence (raising `AssertionError` before any backend call otherwise),
calls the client once on the whole batch, extracts `translation["translatedText"]`
from each response item, extends `self.translated_strings` with them, and
returns `self.translated_strings`. The `optimized` parameter is unused. -/
def GoogleAPITranslatorService.translate_strings (translate_client : GoogleClient)
    (state : GoogleAPITranslatorServiceState) (strings : PyVal)
    (target_language : String) (source_language : String := "en")
    (optimized : Bool := true) :
    Except PyErr (List String × GoogleAPITranslatorServiceState) × List GoogleCall :=
  match strings with
  | .list xs =>
      let response := translate_client.translateBatch xs target_language source_language
      match extractTranslatedText response with
      | .ok news =>
          let translated_strings := state.translated_strings ++ news
          (.ok (translated_strings, ⟨translated_strings⟩),
           [.callBatch xs target_language source_language])
      | .error e => (.error e, [.callBatch xs target_language source_language])
  | _ => (.error (.assertionError "`strings` should be a sequence containing string_types"), [])

/-- A stub goslate backend for concrete evaluation: prepends the target
language to each input. -/
def stubGoslate : Goslate where
  translateStr := fun s t _ => t ++ ":" ++ s
  translateIter := fun v t _ =>
    match v with
    | .list xs => xs.map (fun s => t ++ ":" ++ s)
    | .gen xs => xs.map (fun s => t ++ ":" ++ s)
    | .set xs => xs.map (fun s => t ++ ":" ++ s)
    | _ => []

/-- A stub Google client for concrete evaluation: responds to each input with
a dict mapping `"translatedText"` to the target language prepended to it. -/
def stubGoogleClient : GoogleClient where
  translateOne := fun s t _ => [("translatedText", t ++ ":" ++ s)]
  translateBatch := fun xs t _ => xs.map (fun s => [("translatedText", t ++ ":" ++ s)])

/-- A stub Google client whose responses lack the `translatedText` field. -/
def stubGoogleClientNoField : GoogleClient where
  translateOne := fun _ _ _ => [("detectedSourceLanguage", "en")]
  translateBatch := fun xs _ _ => xs.map (fun _ => [("detectedSourceLanguage", "en")])

/-- Extracting `translatedText` from a well-formed batch response succeeds and
yields the per-item translations in request order. -/
theorem extractTranslatedText_map (f : String → String) (xs : List String) :
    extractTranslatedText (xs.map (fun s => ([("translatedText", f s)] : PyDict))) =
      .ok (xs.map f) := by
  induction xs with
  | nil => rfl
  | cons a l ih => simp [extractTranslatedText, PyDict.getitem, List.lookup, ih]; rfl

/-- C3: invoked on the abstract `BaseTranslatorService` contract,
`translate_string` and `translate_strings` raise `NotImplementedError` for
every input. -/
theorem base_service_raises_notImplementedError (text strings : PyVal)
    (tl sl : String) (optimized : Bool) :
    BaseTranslatorService.translate_string text tl sl =
      .error (.notImplementedError ".translate_string() must be overridden.") ∧
    BaseTranslatorService.translate_strings strings tl sl optimized =
      .error (.notImplementedError ".translate_strings() must be overridden.") :=
  ⟨rfl, rfl⟩

/-- C8: on `GoogleAPITranslatorService.translate_strings`, the `optimized`
flag has no observable effect: with the same client, instance state and
arguments, both flag values give the same result, the same new instance state
and the same backend calls. -/
theorem paid_translate_strings_optimized_no_effect (client : GoogleClient)
    (state : GoogleAPITranslatorServiceState) (strings : PyVal) (tl sl : String) :
    GoogleAPITranslatorService.translate_strings client state strings tl sl true =
      GoogleAPITranslatorService.translate_strings client state strings tl sl false :=
  rfl

/-- C9: `GoogleAPITranslatorService.translate_string` defaults
`target_language` to `"en"` and `source_language` to `"es"`; calling it with
only a text argument passes exactly those languages to the backend client.
The base contract's default `source_language` is `"en"` (so the paid
variant's defaults are reversed relative to it). -/
theorem paid_translate_string_default_languages (client : GoogleClient)
    (text tl : String) :
    GoogleAPITranslatorService.translate_string client (.str text) =
      GoogleAPITranslatorService.translate_string client (.str text) "en" "es" ∧
    (GoogleAPITranslatorService.translate_string client (.str text)).2 =
      [.callOne text "en" "es"] ∧
    BaseTranslatorService.translate_string (.str text) tl =
      BaseTranslatorService.translate_string (.str text) tl "en" :=
  ⟨rfl, rfl, rfl⟩

/-- C10: `GoogleAPITranslatorService.translate_string` returns exactly
`response.get("translatedText")`: when the field is absent the defaulting
lookup yields `None` and the call returns it without raising; when present,
exactly its value is returned. -/
theorem paid_translate_string_translatedText_get (client : GoogleClient)
    (text tl sl : String) (v : Option String)
    (h : PyDict.get (client.translateOne text tl sl) "translatedText" = v) :
    (GoogleAPITranslatorService.translate_string client (.str text) tl sl).1 = .ok v := by
  simp [GoogleAPITranslatorService.translate_string, h]

/-- Witness for C10: on a client whose response lacks `translatedText`,
`translate_string` returns `None` rather than raising. -/
theorem paid_translate_string_translatedText_get_witness :
    PyDict.get (stubGoogleClientNoField.translateOne "hi" "fr" "en") "translatedText" =
      Option.none ∧
    (GoogleAPITranslatorService.translate_string stubGoogleClientNoField
        (.str "hi") "fr" "en").1 = .ok Option.none :=
  ⟨rfl, paid_translate_string_translatedText_get stubGoogleClientNoField
    "hi" "fr" "en" Option.none rfl⟩

/-- C4: passing a non-string `text` to `translate_string` on either concrete
variant raises `AssertionError`, and the backend-call trace is empty: the
failure happens before any backend call. -/
theorem translate_string_nonstring_text_precondition (text : PyVal)
    (service : Goslate) (client : GoogleClient) (tl sl : String)
    (h : text.isString = false) :
    GoSlateTranslatorService.translate_string service text tl sl =
      (.error (.assertionError "`text` should a string literal"), []) ∧
    GoogleAPITranslatorService.translate_string client text tl sl =
      (.error (.assertionError "`text` should a string literal"), []) := by
  cases text <;> simp_all [GoSlateTranslatorService.translate_string,
    GoogleAPITranslatorService.translate_string, PyVal.isString]

/-- Witness for C4: an integer passed as `text` trips the precondition on
both variants with no backend call. -/
theorem translate_string_nonstring_text_precondition_witness :
    (PyVal.int 7).isString = false ∧
    (GoSlateTranslatorService.translate_string stubGoslate (.int 7) "fr" "en" =
       (.error (.assertionError "`text` should a string literal"), []) ∧
     GoogleAPITranslatorService.translate_string stubGoogleClient (.int 7) "fr" "en" =
       (.error (.assertionError "`text` should a string literal"), [])) :=
  ⟨rfl, translate_string_nonstring_text_precondition (.int 7) stubGoslate
    stubGoogleClient "fr" "en" rfl⟩

/-- C5: a value that is not a mutable sequence (e.g. a generator or a set)
passed as `strings` makes `GoogleAPITranslatorService.translate_strings`
raise `AssertionError` with no backend call; a non-iterable passed as
`strings` makes `GoSlateTranslatorService.translate_strings` raise
`AssertionError` with no backend call. -/
theorem translate_strings_input_shape_precondition (v w : PyVal)
    (service : Goslate) (client : GoogleClient)
    (state : GoogleAPITranslatorServiceState) (tl sl : String) (o : Bool)
    (hv : v.isMutableSequence = false) (hw : w.isIterable = false) :
    GoogleAPITranslatorService.translate_strings client state v tl sl o =
      (.error (.assertionError "`strings` should be a sequence containing string_types"), []) ∧
    GoSlateTranslatorService.translate_strings service w tl sl o =
      (.error (.assertionError "`strings` should a iterable containing string_types"), []) := by
  constructor
  · cases v <;> simp_all [GoogleAPITranslatorService.translate_strings, PyVal.isMutableSequence]
  · cases w <;> simp_all [GoSlateTranslatorService.translate_strings, PyVal.isIterable]

/-- Witness for C5: a generator trips the paid variant's mutable-sequence
precondition and an integer trips the free variant's iterable precondition,
both with no backend call. -/
theorem translate_strings_input_shape_precondition_witness :
    (PyVal.gen ["a"]).isMutableSequence = false ∧ (PyVal.int 3).isIterable = false ∧
    (GoogleAPITranslatorService.translate_strings stubGoogleClient ⟨[]⟩
        (.gen ["a"]) "fr" "en" true =
      (.error (.assertionError "`strings` should be a sequence containing string_types"), []) ∧
    GoSlateTranslatorService.translate_strings stubGoslate (.int 3) "fr" "en" true =
      (.error (.assertionError "`strings` should a iterable containing string_types"), [])) :=
  ⟨rfl, rfl, translate_strings_input_shape_precondition (.gen ["a"]) (.int 3)
    stubGoslate stubGoogleClient ⟨[]⟩ "fr" "en" true rfl rfl⟩

/-- C6: constructing `GoogleAPITranslatorService` with the credentials
setting absent or empty raises `ImproperlyConfigured` whose message names the
missing setting, and the construction trace is empty: no credentials are
decoded, no client is constructed, no network call is attempted. -/
theorem paid_init_missing_credentials_configuration_error (s : Option PyDict)
    (h : s = Option.none ∨ s = some []) :
    GoogleAPITranslatorService.init s =
      (.error (.improperlyConfigured
        "ImproperlyConfigured AUTOTRANSLATE_GOOGLE_TRANSLATOR_SERVICE_CREDENTIALS_JSON setting"), []) ∧
    "ImproperlyConfigured AUTOTRANSLATE_GOOGLE_TRANSLATOR_SERVICE_CREDENTIALS_JSON setting" =
      "ImproperlyConfigured " ++ "AUTOTRANSLATE_GOOGLE_TRANSLATOR_SERVICE_CREDENTIALS_JSON" ++
      " setting" := by
  rcases h with h | h <;> subst h <;> exact ⟨rfl, by decide⟩

/-- Witness for C6: an absent setting fails construction with the
configuration error and an empty trace. -/
theorem paid_init_missing_credentials_configuration_error_witness :
    ((Option.none : Option PyDict) = Option.none ∨
     (Option.none : Option PyDict) = some ([] : PyDict)) ∧
    GoogleAPITranslatorService.init Option.none =
      (.error (.improperlyConfigured
        "ImproperlyConfigured AUTOTRANSLATE_GOOGLE_TRANSLATOR_SERVICE_CREDENTIALS_JSON setting"), []) :=
  ⟨Or.inl rfl,
   (paid_init_missing_credentials_configuration_error Option.none (Or.inl rfl)).1⟩

/-- C7: on an iterable input, `GoSlateTranslatorService.translate_strings`
with `optimized=True` returns the backend's lazy sequence unchanged
(single-pass), and with `optimized=False` returns the fully materialized
list obtained by draining it; both carry the same elements. -/
theorem free_translate_strings_lazy_vs_materialized (service : Goslate)
    (strings : PyVal) (tl sl : String) (h : strings.isIterable = true) :
    GoSlateTranslatorService.translate_strings service strings tl sl true =
      (.ok (.lazy (service.translateIter strings tl sl)), [.callIter strings tl sl]) ∧
    GoSlateTranslatorService.translate_strings service strings tl sl false =
      (.ok (.materialized (service.translateIter strings tl sl)), [.callIter strings tl sl]) ∧
    (BatchResult.lazy (service.translateIter strings tl sl)).elems =
      (BatchResult.materialized (service.translateIter strings tl sl)).elems := by
  refine ⟨?_, ?_, rfl⟩ <;> simp [GoSlateTranslatorService.translate_strings, h]

/-- Witness for C7: a concrete list under the stub backend. -/
theorem free_translate_strings_lazy_vs_materialized_witness :
    (PyVal.list ["hello", "world"]).isIterable = true ∧
    (GoSlateTranslatorService.translate_strings stubGoslate (.list ["hello", "world"])
        "fr" "en" true =
      (.ok (.lazy (stubGoslate.translateIter (.list ["hello", "world"]) "fr" "en")),
       [.callIter (.list ["hello", "world"]) "fr" "en"]) ∧
    GoSlateTranslatorService.translate_strings stubGoslate (.list ["hello", "world"])
        "fr" "en" false =
      (.ok (.materialized (stubGoslate.translateIter (.list ["hello", "world"]) "fr" "en")),
       [.callIter (.list ["hello", "world"]) "fr" "en"]) ∧
    (BatchResult.lazy (stubGoslate.translateIter (.list ["hello", "world"]) "fr" "en")).elems =
      (BatchResult.materialized (stubGoslate.translateIter
        (.list ["hello", "world"]) "fr" "en")).elems) :=
  ⟨rfl, free_translate_strings_lazy_vs_materialized stubGoslate
    (.list ["hello", "world"]) "fr" "en" rfl⟩

/-- C2: on `GoogleAPITranslatorService`, two successive `translate_strings`
calls (under a backend answering each batch in request order) accumulate: the
first call returns the prior accumulator extended with the first batch's
translations, and the second call returns exactly the first call's return
value followed by the second batch's translations — the accumulator is
appended to and never reset. -/
theorem paid_translate_strings_accumulates_across_calls (client : GoogleClient)
    (acc xs ys : List String) (f : String → String) (tl sl tl2 sl2 : String) (o1 o2 : Bool)
    (hx : client.translateBatch xs tl sl = xs.map (fun s => [("translatedText", f s)]))
    (hy : client.translateBatch ys tl2 sl2 = ys.map (fun s => [("translatedText", f s)])) :
    (GoogleAPITranslatorService.translate_strings client ⟨acc⟩ (.list xs) tl sl o1).1 =
      .ok (acc ++ xs.map f, ⟨acc ++ xs.map f⟩) ∧
    (GoogleAPITranslatorService.translate_strings client ⟨acc ++ xs.map f⟩
        (.list ys) tl2 sl2 o2).1 =
      .ok ((acc ++ xs.map f) ++ ys.map f, ⟨(acc ++ xs.map f) ++ ys.map f⟩) := by
  constructor <;>
    simp [GoogleAPITranslatorService.translate_strings, hx, hy, extractTranslatedText_map]

/-- Witness for C2: a fresh instance, first call on `["hi"]` then on
`["bye"]`; the second call's return value contains both translations in call
order. -/
theorem paid_translate_strings_accumulates_across_calls_witness :
    stubGoogleClient.translateBatch ["hi"] "fr" "en" =
      ["hi"].map (fun s => [("translatedText", "fr" ++ ":" ++ s)]) ∧
    stubGoogleClient.translateBatch ["bye"] "fr" "en" =
      ["bye"].map (fun s => [("translatedText", "fr" ++ ":" ++ s)]) ∧
    ((GoogleAPITranslatorService.translate_strings stubGoogleClient ⟨[]⟩
        (.list ["hi"]) "fr" "en" true).1 =
      .ok ([] ++ ["hi"].map (fun s => "fr" ++ ":" ++ s),
           ⟨[] ++ ["hi"].map (fun s => "fr" ++ ":" ++ s)⟩) ∧
    (GoogleAPITranslatorService.translate_strings stubGoogleClient
        ⟨[] ++ ["hi"].map (fun s => "fr" ++ ":" ++ s)⟩ (.list ["bye"]) "fr" "en" true).1 =
      .ok (([] ++ ["hi"].map (fun s => "fr" ++ ":" ++ s)) ++
             ["bye"].map (fun s => "fr" ++ ":" ++ s),
           ⟨([] ++ ["hi"].map (fun s => "fr" ++ ":" ++ s)) ++
             ["bye"].map (fun s => "fr" ++ ":" ++ s)⟩)) :=
  ⟨rfl, rfl, paid_translate_strings_accumulates_across_calls stubGoogleClient
    [] ["hi"] ["bye"] (fun s => "fr" ++ ":" ++ s) "fr" "en" "fr" "en" true true rfl rfl⟩

/-- Counterexample for C1 as stated: on a `GoogleAPITranslatorService` whose
accumulator already holds `["x"]` (left by an earlier call), translating
`["a"]` under an order-preserving backend returns `["x", "fr:a"]` — a
two-element sequence whose positions do not match the one-element input, so
the returned order does not position-for-position match the input order. -/
theorem paid_translate_strings_return_not_input_ordered_on_used_instance :
    (GoogleAPITranslatorService.translate_strings stubGoogleClient ⟨["x"]⟩
        (.list ["a"]) "fr" "en" true).1 =
      .ok (["x", "fr:a"], ⟨["x", "fr:a"]⟩) ∧
    ["x", "fr:a"].length ≠ (["a"] : List String).length ∧
    ["x", "fr:a"] ≠ ["a"].map (fun s => "fr" ++ ":" ++ s) :=
  ⟨rfl, by decide, by decide⟩

/-- C1 (amended): under a backend answering the batch in request order, the
free variant's result carries the translations position-for-position in input
order for both `optimized` values; the paid variant's return value is the
prior accumulator followed by the translations in input order — so it matches
the input position-for-position exactly when the accumulator is empty (e.g.
the first call on a fresh instance). -/
theorem translate_strings_order_preserved (service : Goslate) (client : GoogleClient)
    (f : String → String) (xs acc : List String) (tl sl : String) (o : Bool)
    (hg : service.translateIter (.list xs) tl sl = xs.map f)
    (hc : client.translateBatch xs tl sl = xs.map (fun s => [("translatedText", f s)])) :
    (GoSlateTranslatorService.translate_strings service (.list xs) tl sl o).1 =
      .ok (if o then .lazy (xs.map f) else .materialized (xs.map f)) ∧
    (if o then BatchResult.lazy (xs.map f) else .materialized (xs.map f)).elems =
      xs.map f ∧
    (GoogleAPITranslatorService.translate_strings client ⟨[]⟩ (.list xs) tl sl o).1 =
      .ok (xs.map f, ⟨xs.map f⟩) ∧
    (GoogleAPITranslatorService.translate_strings client ⟨acc⟩ (.list xs) tl sl o).1 =
      .ok (acc ++ xs.map f, ⟨acc ++ xs.map f⟩) := by
  refine ⟨?_, ?_, ?_, ?_⟩
  · simp [GoSlateTranslatorService.translate_strings, PyVal.isIterable, hg]
  · cases o <;> rfl
  · simp [GoogleAPITranslatorService.translate_strings, hc, extractTranslatedText_map]
  · simp [GoogleAPITranslatorService.translate_strings, hc, extractTranslatedText_map]

/-- Witness for C1 (amended): `["hello", "world"]` under the stub backends,
`optimized=False`, fresh paid accumulator and an accumulator holding
`["prev"]`. -/
theorem translate_strings_order_preserved_witness :
    stubGoslate.translateIter (.list ["hello", "world"]) "fr" "en" =
      ["hello", "world"].map (fun s => "fr" ++ ":" ++ s) ∧
    stubGoogleClient.translateBatch ["hello", "world"] "fr" "en" =
      ["hello", "world"].map (fun s => [("translatedText", "fr" ++ ":" ++ s)]) ∧
    ((GoSlateTranslatorService.translate_strings stubGoslate (.list ["hello", "world"])
        "fr" "en" false).1 =
      .ok (if false then .lazy (["hello", "world"].map (fun s => "fr" ++ ":" ++ s))
           else .materialized (["hello", "world"].map (fun s => "fr" ++ ":" ++ s))) ∧
    (if false then BatchResult.lazy (["hello", "world"].map (fun s => "fr" ++ ":" ++ s))
     else .materialized (["hello", "world"].map (fun s => "fr" ++ ":" ++ s))).elems =
      ["hello", "world"].map (fun s => "fr" ++ ":" ++ s) ∧
    (GoogleAPITranslatorService.translate_strings stubGoogleClient ⟨[]⟩
        (.list ["hello", "world"]) "fr" "en" false).1 =
      .ok (["hello", "world"].map (fun s => "fr" ++ ":" ++ s),
           ⟨["hello", "world"].map (fun s => "fr" ++ ":" ++ s)⟩) ∧
    (GoogleAPITranslatorService.translate_strings stubGoogleClient ⟨["prev"]⟩
        (.list ["hello", "world"]) "fr" "en" false).1 =
      .ok (["prev"] ++ ["hello", "world"].map (fun s => "fr" ++ ":" ++ s),
           ⟨["prev"] ++ ["hello", "world"].map (fun s => "fr" ++ ":" ++ s)⟩)) :=
  ⟨rfl, rfl, translate_strings_order_preserved stubGoslate stubGoogleClient
    (fun s => "fr" ++ ":" ++ s) ["hello", "world"] ["prev"] "fr" "en" false rfl rfl⟩
